import Mathlib

/-!
Verification of the live_translator pipeline orchestration.

The Python sources are shallowly embedded: text is `List Char`, the
`queue.Queue` objects are FIFO lists (append at the tail, pop at the head),
each manager's mutable attributes become a structure threaded through its
methods, and external capability calls (translate, synthesize, play) are
parameterised by an explicit outcome value.
-/

namespace LiveTranslatorModel

/-- Characters stripped by Python's str.strip (the whitespace relevant here). -/
def isSpaceChar (c : Char) : Bool :=
  c = ' ' || c = '\t' || c = '\n' || c = '\r'

/-- Python str.strip: drop leading and trailing whitespace. -/
def pyStrip (s : List Char) : List Char :=
  ((s.dropWhile isSpaceChar).reverse.dropWhile isSpaceChar).reverse

/-- ASCII lower-casing of one character (Python str.lower on the texts used here). -/
def lowerChar (c : Char) : Char :=
  if c.toNat < 65 || 90 < c.toNat then c else Char.ofNat (c.toNat + 32)

/-- Python str.lower over the whole text. -/
def pyLower (s : List Char) : List Char :=
  s.map lowerChar

/-- Whether the second list starts with the first (helper for substring search). -/
def startsWithL : List Char → List Char → Bool
  | [], _ => true
  | _ :: _, [] => false
  | a :: as, b :: bs => (a = b) && startsWithL as bs

/-- Python's `needle in haystack` substring test. -/
def hasSub (needle : List Char) : List Char → Bool
  | [] => startsWithL needle []
  | c :: rest => startsWithL needle (c :: rest) || hasSub needle rest

/-! ## step1_audio_capture.py : AudioCaptureManager -/

/-- A transcription TurnEvent as consumed by `AudioCaptureManager._on_turn`. -/
structure TurnEvent where
  transcript : List Char
  end_of_turn : Bool
  turn_is_formatted : Bool
deriving DecidableEq

/-- The mutable attributes of AudioCaptureManager that `_on_turn` reads and writes. -/
structure CaptureState where
  language_code : List Char
  is_paused : Bool
  last_processed_text : List Char
  transcription_queue : List (List Char)
deriving DecidableEq

/-- Language-specific filler-word list chosen at the top of `_on_turn`
(the Python variable is named spanish_filler_words in both branches). -/
def fillerWords (language_code : List Char) : List (List Char) :=
  if language_code = "es".toList then
    ["eh".toList, "em".toList, "este".toList, "bueno".toList, "pues".toList,
     "entonces".toList, "o sea".toList]
  else
    ["um".toList, "uh".toList, "ah".toList, "er".toList, "like".toList,
     "you know".toList]

/-- Language-specific minimum length chosen at the top of `_on_turn`
(the source assigns 3 in both branches). -/
def min_length (language_code : List Char) : Nat :=
  if language_code = "es".toList then 3 else 3

/-- AudioCaptureManager._on_turn: the turn filter.  Returns the updated state and,
when the strict filter accepts the turn, the emitted finalized phrase (which the
source both appends to transcription_queue and hands to the transcription
callback). -/
def on_turn (s : CaptureState) (e : TurnEvent) : CaptureState × Option (List Char) :=
  if s.is_paused then (s, none)
  else
    let filler := fillerWords s.language_code
    let minLen := min_length s.language_code
    let transcript_text := pyStrip e.transcript
    if e.end_of_turn && e.turn_is_formatted &&
       !transcript_text.isEmpty &&
       decide (transcript_text.length > minLen) &&
       decide (transcript_text ≠ s.last_processed_text) &&
       !(filler.contains (pyLower transcript_text)) then
      ({ s with last_processed_text := transcript_text,
                transcription_queue := s.transcription_queue ++ [transcript_text] },
       some transcript_text)
    else (s, none)

/-- Feeding a sequence of turn events through `_on_turn`, collecting the emitted
finalized phrases in order. -/
def run_capture (s : CaptureState) : List TurnEvent → CaptureState × List (List Char)
  | [] => (s, [])
  | e :: es =>
    ((run_capture (on_turn s e).1 es).1,
     (on_turn s e).2.toList ++ (run_capture (on_turn s e).1 es).2)

/-- Fresh AudioCaptureManager state as built by `__init__` for a language. -/
def captureInit (language_code : List Char) : CaptureState :=
  { language_code := language_code
    is_paused := false
    last_processed_text := []
    transcription_queue := [] }

example :
    (on_turn (captureInit "en".toList)
      { transcript := "Hello world".toList, end_of_turn := true,
        turn_is_formatted := true }).2 = some ("Hello world".toList) := by
  decide

example :
    (on_turn (captureInit "en".toList)
      { transcript := "um".toList, end_of_turn := true,
        turn_is_formatted := true }).2 = none := by
  decide

/-! ## queue.Queue : the inter-stage queues

Every queue in the sources is constructed as `queue.Queue()` with no maxsize
argument.  `put` appends at the tail and never blocks or drops. -/

/-- queue.Queue().put on an unbounded FIFO: append at the tail. -/
def queue_put (q : List α) (x : α) : List α := q ++ [x]

/-! ## step2_translation.py : TranslationManager -/

/-- Outcome of one call into `argostranslate.translate.translate`. -/
inductive TranslateResult where
  | ok (translated : List Char)
  | error
deriving DecidableEq

/-- The attributes of TranslationManager used by its queue-processing methods. -/
structure TransState where
  is_initialized : Bool
  translation_queue : List (List Char)
deriving DecidableEq

/-- TranslationManager.translate_text: returns the engine's translation, and the
original text both when the manager is uninitialized and when the engine call
raises (the except branch returns text). -/
def translate_text (s : TransState) (text : List Char) (r : TranslateResult) :
    List Char :=
  if !s.is_initialized then text
  else
    match r with
    | .ok translated => translated
    | .error => text

/-- TranslationManager.queue_translation: enqueue only when the stripped text is
truthy (nonempty). -/
def queue_translation (s : TransState) (text : List Char) : TransState :=
  if !(pyStrip text).isEmpty then
    { s with translation_queue := queue_put s.translation_queue text }
  else s

/-- TranslationManager.process_translation_queue: pop one item (or observe
queue.Empty), translate it, and hand the result to the translation callback.
The returned Option is the argument passed to the callback. -/
def process_translation_queue (s : TransState) (r : TranslateResult) :
    TransState × Option (List Char) :=
  match s.translation_queue with
  | [] => (s, none)
  | text :: rest =>
    ({ s with translation_queue := rest }, some (translate_text s text r))

/-! ## step3_tts.py : TTSManager -/

/-- TTSManager.queue_tts applied to its tts_queue: enqueue only when the
stripped text is truthy (nonempty). -/
def queue_tts (tts_queue : List (List Char)) (text : List Char) :
    List (List Char) :=
  if !(pyStrip text).isEmpty then queue_put tts_queue text else tts_queue

/-- LiveTranslator._translation_to_tts_callback composed with one
`process_translation_queue` step: the translated (or passed-through) text is
queued for TTS.  Returns the updated TransState and the updated tts_queue. -/
def translation_step (s : TransState) (tts_queue : List (List Char))
    (r : TranslateResult) : TransState × List (List Char) :=
  let (s', out) := process_translation_queue s r
  match out with
  | none => (s', tts_queue)
  | some translated => (s', queue_tts tts_queue translated)

/-! ## step4_audio_output.py : AudioOutputManager -/

/-- The mutable attributes of AudioOutputManager relevant to playback. -/
structure OutState where
  is_playing : Bool
  audio_queue : List (List Char)
deriving DecidableEq

/-- Where a playback attempt inside `play_audio_file`'s try block fails, if it
does.  `failBeforeStart` covers the raises before `is_playing = True` (sf.read,
resampling); `failAfterStart` covers raises after the Started callback
(sd.play / sd.wait). -/
inductive PlayOutcome where
  | success
  | failBeforeStart
  | failAfterStart
deriving DecidableEq

/-- The message `play_audio_file` passes to audio_callback when playback starts. -/
def startedMsg (audio_path : List Char) : List Char :=
  "Started playing: ".toList ++ audio_path

/-- The message `play_audio_file` passes to audio_callback when playback ends. -/
def finishedMsg (audio_path : List Char) : List Char :=
  "Finished playing: ".toList ++ audio_path

/-- AudioOutputManager.play_audio_file: returns the updated state, the boolean
result, and the list of messages delivered to audio_callback, in order.
The missing-file branch returns False immediately; the except branch resets
is_playing and returns False without a Finished message. -/
def play_audio_file (s : OutState) (audio_path : List Char) (fileExists : Bool)
    (oc : PlayOutcome) : OutState × Bool × List (List Char) :=
  if !fileExists then (s, false, [])
  else
    match oc with
    | .failBeforeStart => ({ s with is_playing := false }, false, [])
    | .failAfterStart =>
      ({ s with is_playing := false }, false, [startedMsg audio_path])
    | .success =>
      ({ s with is_playing := false }, true,
       [startedMsg audio_path, finishedMsg audio_path])

/-- One observable action of the playback worker loop. -/
inductive PlaybackAction where
  | callbackMsg (message : List Char)
  | removeFile (audio_path : List Char)
  | removeWarn (audio_path : List Char)
deriving DecidableEq

/-- One iteration of AudioOutputManager._playback_worker: pop (or observe
queue.Empty), play the file, then attempt `os.remove` on it — the remove raises
(and is logged as a warning) exactly when the file does not exist. -/
def playback_iteration (s : OutState) (popped : Option (List Char))
    (fileExists : Bool) (oc : PlayOutcome) : OutState × List PlaybackAction :=
  match popped with
  | none => (s, [])
  | some audio_path =>
    let (s', _ok, msgs) := play_audio_file s audio_path fileExists oc
    (s', msgs.map PlaybackAction.callbackMsg ++
         [if fileExists then PlaybackAction.removeFile audio_path
          else PlaybackAction.removeWarn audio_path])

/-! ## entry_point.py : LiveTranslator mute/unmute control loop -/

/-- The mute-control attributes of LiveTranslator together with the capture
adapter's streaming flags. -/
structure LiveState where
  capture_is_streaming : Bool
  capture_is_paused : Bool
  is_tts_playing : Bool
  mic_paused : Bool
deriving DecidableEq

/-- AudioCaptureManager.pause_streaming: set is_paused only when streaming and
not already paused. -/
def pause_streaming (ls : LiveState) : LiveState :=
  if ls.capture_is_streaming && !ls.capture_is_paused then
    { ls with capture_is_paused := true }
  else ls

/-- AudioCaptureManager.resume_streaming: clear is_paused only when streaming
and currently paused. -/
def resume_streaming (ls : LiveState) : LiveState :=
  if ls.capture_is_streaming && ls.capture_is_paused then
    { ls with capture_is_paused := false }
  else ls

/-- LiveTranslator._tts_callback: mark TTS playing, pause the microphone when
not already paused, and queue the generated audio file for playback
(queue_audio enqueues only paths that exist). -/
def tts_callback (ls : LiveState) (audio_queue : List (List Char))
    (audio_path : List Char) (pathExists : Bool) :
    LiveState × List (List Char) :=
  let ls1 := { ls with is_tts_playing := true }
  let ls2 :=
    if !ls1.mic_paused then { pause_streaming ls1 with mic_paused := true }
    else ls1
  (ls2, if pathExists then queue_put audio_queue audio_path else audio_queue)

/-- LiveTranslator._audio_callback: resume the microphone when the message
contains "finished playing" (case-insensitively) while TTS is playing. -/
def audio_callback (ls : LiveState) (message : List Char) : LiveState :=
  if hasSub "finished playing".toList (pyLower message) && ls.is_tts_playing then
    let ls1 := { ls with is_tts_playing := false }
    if ls1.mic_paused then { resume_streaming ls1 with mic_paused := false }
    else ls1
  else ls

/-- One playback attempt as the system sees it: `play_audio_file` runs and each
message it emits is delivered to `_audio_callback` in order. -/
def playback_round (ls : LiveState) (s : OutState) (audio_path : List Char)
    (fileExists : Bool) (oc : PlayOutcome) : LiveState × OutState :=
  let (s', _ok, msgs) := play_audio_file s audio_path fileExists oc
  (msgs.foldl audio_callback ls, s')

/-! ## entry_point.py : LiveTranslator.initialize / LiveTranslator.start -/

/-- Whether one capability's construction succeeds or raises. -/
inductive InitResult where
  | ok
  | fail
deriving DecidableEq

/-- Outcomes of the four capability constructions attempted by
LiveTranslator.initialize, in source order. -/
structure InitOutcomes where
  capture : InitResult
  translation : InitResult
  tts : InitResult
  output : InitResult
deriving DecidableEq

/-- An observable action of LiveTranslator.initialize / LiveTranslator.start. -/
inductive StartAction where
  | init_capture
  | init_translation
  | init_tts
  | init_output
  | start_translation_worker
  | start_tts_worker
  | start_playback_thread
  | start_capture
deriving DecidableEq

/-- Whether an action starts a worker thread or the capture stream (i.e. begins
doing work, as opposed to initializing a capability). -/
def isWorkStart : StartAction → Bool
  | .start_translation_worker => true
  | .start_tts_worker => true
  | .start_playback_thread => true
  | .start_capture => true
  | _ => false

/-- LiveTranslator.initialize (modelled as `init_components`): the four
capabilities are constructed in order inside one try block; the first raise
aborts the remainder and the except branch returns False.  Returns the action
trace and the boolean result. -/
def init_components (o : InitOutcomes) : List StartAction × Bool :=
  if o.capture = .fail then ([.init_capture], false)
  else if o.translation = .fail then
    ([.init_capture, .init_translation], false)
  else if o.tts = .fail then
    ([.init_capture, .init_translation, .init_tts], false)
  else if o.output = .fail then
    ([.init_capture, .init_translation, .init_tts, .init_output], false)
  else ([.init_capture, .init_translation, .init_tts, .init_output], true)

/-- LiveTranslator.start: run initialize first; on failure return False without
starting anything; on success start the two worker threads, the playback
thread, then the capture stream (whose own start may raise, making start
return False after the fact). -/
def start (o : InitOutcomes) (captureStreamOk : Bool) :
    List StartAction × Bool :=
  if !(init_components o).2 then ((init_components o).1, false)
  else
    ((init_components o).1 ++ [.start_translation_worker, .start_tts_worker,
                               .start_playback_thread, .start_capture],
     captureStreamOk)

/-! ## Helper lemmas -/

/-- `_on_turn` either rejects the turn (leaving the whole state untouched) or
emits the stripped text, which differs from last_processed_text and becomes the
new last_processed_text. -/
theorem on_turn_spec (s : CaptureState) (e : TurnEvent) :
    on_turn s e = (s, none) ∨
    ∃ t, on_turn s e =
        ({ s with last_processed_text := t,
                  transcription_queue := s.transcription_queue ++ [t] },
         some t) ∧
      t ≠ s.last_processed_text := by
  unfold on_turn
  split
  · exact Or.inl rfl
  · dsimp only
    split
    case isTrue h =>
      refine Or.inr ⟨pyStrip e.transcript, rfl, ?_⟩
      simp only [Bool.and_eq_true, decide_eq_true_eq] at h
      exact h.1.2
    case isFalse h => exact Or.inl rfl

/-! ## Claim theorems -/

/-- C4: while the capture manager is paused (the guard is Muted), `_on_turn`
emits no finalized phrase, calls no callback, and leaves the state — including
the transcription queue — completely unchanged, regardless of the turn's
content or flags. -/
theorem muted_suppresses_turns (s : CaptureState) (e : TurnEvent)
    (h : s.is_paused = true) : on_turn s e = (s, none) := by
  unfold on_turn
  simp [h]

/-- C4 witness: a finalized, formatted, long turn arriving while paused
produces nothing. -/
theorem muted_suppresses_turns_witness :
    on_turn
      { language_code := "en".toList, is_paused := true,
        last_processed_text := [], transcription_queue := [] }
      { transcript := "Hello world".toList, end_of_turn := true,
        turn_is_formatted := true } =
    ({ language_code := "en".toList, is_paused := true,
       last_processed_text := [], transcription_queue := [] }, none) :=
  muted_suppresses_turns _ _ rfl

/-- C7: the turn filter emits a phrase only when the stripped text is strictly
longer than the configured minimum, which is 3 for every language branch of
the source; any turn whose stripped text has length at most that minimum is
rejected with the state unchanged. -/
theorem short_turns_rejected (s : CaptureState) (e : TurnEvent)
    (h : (pyStrip e.transcript).length ≤ min_length s.language_code) :
    on_turn s e = (s, none) ∧ min_length s.language_code = 3 := by
  constructor
  · unfold on_turn
    split
    · rfl
    · dsimp only
      have hd : decide ((pyStrip e.transcript).length >
          min_length s.language_code) = false := by
        simp
        omega
      simp [hd]
  · unfold min_length
    split <;> rfl

/-- C7 witness: the three-character turn "hm " (stripped length 2 at most the
minimum 3) is rejected. -/
theorem short_turns_rejected_witness :
    on_turn (captureInit "en".toList)
      { transcript := "hm ".toList, end_of_turn := true,
        turn_is_formatted := true } =
      (captureInit "en".toList, none) ∧
    min_length (captureInit "en".toList).language_code = 3 :=
  short_turns_rejected _ _ (by decide)

/-- C9: a text whose stripped form is empty is enqueued by neither
queue_translation nor queue_tts — both queues are unchanged by the call. -/
theorem blank_text_not_queued (s : TransState) (tts_queue : List (List Char))
    (text : List Char) (h : pyStrip text = []) :
    queue_translation s text = s ∧ queue_tts tts_queue text = tts_queue := by
  constructor
  · unfold queue_translation
    simp [h]
  · unfold queue_tts
    simp [h]

/-- C9 witness: whitespace-only text leaves a nonempty translation queue and
tts queue untouched. -/
theorem blank_text_not_queued_witness :
    queue_translation
        { is_initialized := true, translation_queue := ["Hello".toList] }
        "  ".toList =
      { is_initialized := true, translation_queue := ["Hello".toList] } ∧
    queue_tts ["Hola".toList] "  ".toList = ["Hola".toList] :=
  blank_text_not_queued _ _ _ (by decide)

/-- C10: when play_audio_file is entered with is_playing = false — as in every
call the serial playback worker makes — the flag is false again when the call
returns, on the missing-file path, the success path, and both exception
paths. -/
theorem play_resets_is_playing (s : OutState) (audio_path : List Char)
    (fileExists : Bool) (oc : PlayOutcome) (h : s.is_playing = false) :
    ((play_audio_file s audio_path fileExists oc).1).is_playing = false := by
  cases fileExists <;> cases oc <;> simp [play_audio_file, h]

/-- C10 witness: a failing playback of an existing file leaves is_playing
false. -/
theorem play_resets_is_playing_witness :
    ((play_audio_file { is_playing := false, audio_queue := [] }
        "tts_output_1.wav".toList true .failAfterStart).1).is_playing =
      false :=
  play_resets_is_playing _ _ _ _ rfl

/-- C5: when the translate call for the head of the translation queue raises,
one processing step forwards the original text unchanged into the TTS queue
(via the translation callback) instead of dropping it, and pops the item. -/
theorem translation_failure_passes_through (s : TransState)
    (tts_queue : List (List Char)) (text : List Char) (rest : List (List Char))
    (hq : s.translation_queue = text :: rest)
    (ht : ¬ (pyStrip text).isEmpty = true) :
    translation_step s tts_queue .error =
      ({ s with translation_queue := rest }, tts_queue ++ [text]) := by
  have htt : translate_text s text .error = text := by
    unfold translate_text
    cases s.is_initialized <;> rfl
  unfold translation_step process_translation_queue
  rw [hq]
  dsimp only
  rw [htt]
  unfold queue_tts queue_put
  simp [ht]

/-- C5 witness: a failed translation of "Hello world" forwards "Hello world"
itself into the TTS queue. -/
theorem translation_failure_passes_through_witness :
    translation_step
        { is_initialized := true, translation_queue := ["Hello world".toList] }
        [] .error =
      ({ is_initialized := true, translation_queue := [] },
       ["Hello world".toList]) :=
  translation_failure_passes_through _ _ _ _ rfl (by decide)

/-- C6: for every audio item the playback worker pops, the iteration's last
action is the deletion of that item's temporary file, for every playback
outcome — success, a failure before playback starts, and a failure during
playback alike. -/
theorem playback_always_removes_file (s : OutState) (audio_path : List Char)
    (oc : PlayOutcome) :
    ((playback_iteration s (some audio_path) true oc).2).getLast? =
      some (PlaybackAction.removeFile audio_path) := by
  cases oc <;> simp [playback_iteration, play_audio_file]

/-- C8: when any capability construction fails, start returns False with the
trace of initialize alone: no worker thread, no playback thread and no capture
stream is started, and nothing beyond capability initialization happens. -/
theorem start_fail_fast (o : InitOutcomes) (captureStreamOk : Bool)
    (h : (init_components o).2 = false) :
    start o captureStreamOk = ((init_components o).1, false) ∧
    ∀ a ∈ (start o captureStreamOk).1, isWorkStart a = false := by
  have hs : start o captureStreamOk = ((init_components o).1, false) := by
    unfold start
    simp [h]
  refine ⟨hs, ?_⟩
  rw [hs]
  unfold init_components
  split
  · intro a ha
    simp at ha
    simp [ha, isWorkStart]
  · split
    · intro a ha
      simp at ha
      rcases ha with ha | ha <;> simp [ha, isWorkStart]
    · split
      · intro a ha
        simp at ha
        rcases ha with ha | ha | ha <;> simp [ha, isWorkStart]
      · split
        · intro a ha
          simp at ha
          rcases ha with ha | ha | ha | ha <;> simp [ha, isWorkStart]
        · intro a ha
          simp at ha
          rcases ha with ha | ha | ha | ha <;> simp [ha, isWorkStart]

/-- C8 witness: when the TTS capability fails to construct, start returns
False after the first three initialization steps and starts no work. -/
theorem start_fail_fast_witness :
    start
        { capture := .ok, translation := .ok, tts := .fail, output := .ok }
        true =
      ((init_components
          { capture := .ok, translation := .ok, tts := .fail,
            output := .ok }).1, false) ∧
    ∀ a ∈ (start
        { capture := .ok, translation := .ok, tts := .fail, output := .ok }
        true).1, isWorkStart a = false :=
  start_fail_fast _ _ (by decide)

/-- C1: evaluation of the code at the failing input.  After TTS readiness
mutes the system (capture paused), a playback attempt that raises during
sd.play/sd.wait returns from play_audio_file without delivering any
"Finished playing" message, so _audio_callback never resumes capture: the
system is left muted.  The success path of the very same round, by contrast,
does resume capture — the divergence is exactly the error path. -/
theorem playback_error_leaves_system_muted :
    let listening : LiveState :=
      { capture_is_streaming := true, capture_is_paused := false,
        is_tts_playing := false, mic_paused := false }
    let muted := (tts_callback listening [] "tts_output_1.wav".toList true).1
    let out : OutState := { is_playing := false, audio_queue := [] }
    muted.capture_is_paused = true ∧
    ((playback_round muted out "tts_output_1.wav".toList true
        .failAfterStart).1).capture_is_paused = true ∧
    ((playback_round muted out "tts_output_1.wav".toList true
        .failBeforeStart).1).capture_is_paused = true ∧
    ((playback_round muted out "tts_output_1.wav".toList true
        .success).1).capture_is_paused = false := by
  decide

/-- C2 counterexample: from a fresh capture state, the finalized formatted
turns "Hello world" then "hello world" are both emitted, because the source's
duplicate check compares the raw strings; the two consecutive emissions are
equal after trimming and lower-casing, contradicting the claim. -/
theorem dedup_not_case_insensitive :
    (run_capture (captureInit "en".toList)
      [{ transcript := "Hello world".toList, end_of_turn := true,
         turn_is_formatted := true },
       { transcript := "hello world".toList, end_of_turn := true,
         turn_is_formatted := true }]).2 =
      ["Hello world".toList, "hello world".toList] ∧
    pyLower (pyStrip "Hello world".toList) =
      pyLower (pyStrip "hello world".toList) := by
  decide

/-- Unfolding equation for run_capture on a cons of turn events. -/
theorem run_capture_cons (s : CaptureState) (e : TurnEvent)
    (es : List TurnEvent) :
    run_capture s (e :: es) =
      ((run_capture (on_turn s e).1 es).1,
       (on_turn s e).2.toList ++ (run_capture (on_turn s e).1 es).2) := rfl

/-- C2 amended: the duplicate check is case-sensitive — a turn whose stripped
text exactly equals the single remembered previous emission is rejected — so
the emitted sequence, prefixed by the remembered last_processed_text, never
contains two consecutive entries that are exactly equal. -/
theorem emissions_never_consecutively_equal (s : CaptureState)
    (ts : List TurnEvent) :
    List.Chain' (fun a b => a ≠ b)
      (s.last_processed_text :: (run_capture s ts).2) := by
  induction ts generalizing s with
  | nil => simp [run_capture]
  | cons e es ih =>
    rcases on_turn_spec s e with h | ⟨t, h, hne⟩
    · have hrw : run_capture s (e :: es) =
          ((run_capture s es).1, (run_capture s es).2) := by
        rw [run_capture_cons, h]
        simp
      rw [hrw]
      exact ih s
    · have hrw : run_capture s (e :: es) =
          ((run_capture (on_turn s e).1 es).1,
           t :: (run_capture (on_turn s e).1 es).2) := by
        rw [run_capture_cons]
        rw [h]
        simp
      rw [hrw]
      rw [List.chain'_cons]
      constructor
      · exact fun hc => hne hc.symm
      · have hlast : ((on_turn s e).1).last_processed_text = t := by
          rw [h]
        rw [← hlast]
        exact ih (on_turn s e).1

/-- C3 counterexample: the queues are built as queue.Queue() with no maxsize,
so seventeen consecutive puts on an initially empty queue all land in the
queue — more than the claimed capacity of 16, with nothing blocked or
dropped. -/
theorem queue_not_bounded :
    (List.foldl queue_put ([] : List (List Char))
      (List.replicate 17 "x".toList)).length = 17 ∧ ¬ (17 ≤ 16) := by
  decide

/-- C3 amended: every inter-stage queue is an unbounded FIFO — a sequence of
puts appends exactly the pushed items in order; no item is ever refused,
blocked, or dropped, and no capacity bound exists. -/
theorem queue_put_keeps_everything {α : Type} (q items : List α) :
    List.foldl queue_put q items = q ++ items := by
  induction items generalizing q with
  | nil => simp
  | cons x xs ih =>
    simp [queue_put, ih]

end LiveTranslatorModel
